import Mathlib

/-!
Shallow embedding of the prediction logic of the fifa-predictor-bot
front-end (app.js and the unnamed variant files part_000 and part_001).

Every call to the JavaScript builtin Math.random() is modelled as one
draw from an explicit stream of rationals, consumed in the evaluation
order of the JavaScript source; a draw is valid when it lies in [0, 1).
Math.floor on a nonnegative rational is modelled by Int.floor.  A score
string such as "2:1" is modelled by its pair of goal counts.  A
percentage value such as Math.floor(Math.random() * 20) + 50 is modelled
as the corresponding integer expression.
-/

namespace FifaPredictor

/-- A stream of successive Math.random() results. -/
def Rng : Type := ℕ → ℚ

/-- Every draw of the stream lies in [0, 1), as Math.random() guarantees. -/
def validRng (r : Rng) : Prop := ∀ i, 0 ≤ r i ∧ r i < 1

/-- Math.floor on a rational, as used by the source on nonnegative values. -/
def jsFloor (q : ℚ) : ℤ := Int.floor q

/-- One predicted scoreline: the score string "home:away" is modelled by the
pair of goal counts, together with its confidence percentage. -/
structure ScoreEntry where
  home : ℤ
  away : ℤ
  confidence : ℤ
  deriving DecidableEq, Repr

namespace App

/-- Result of generatePrediction in app.js (first variant, lines 309-340):
the tuple of values it passes to displayResults. -/
structure AppPrediction where
  team1 : String
  team2 : String
  odds1 : String
  odds2 : String
  halfTimeScores : List ScoreEntry
  fullTimeScores : List ScoreEntry
  halfTimeWinner : String
  halfTimeProbability : ℤ
  fullTimeWinner : String
  fullTimeProbability : ℤ
  halfTimeGoals : ℚ
  fullTimeGoals : ℚ
  deriving DecidableEq, Repr

/-- generatePrediction from app.js lines 309-340.  Draws are consumed in
source evaluation order: six for halfTimeScores, six for fullTimeScores,
one or two for the half-time winner ternary, one for its probability,
one or two for the full-time winner, one for its probability, and one
for each goal threshold.  The index offsets i1 and i2 record how many
draws the two winner ternaries consumed. -/
def generatePrediction (team1 team2 odds1 odds2 : String) (r : Rng) :
    AppPrediction :=
  let halfTimeScores : List ScoreEntry :=
    [ ⟨jsFloor (r 0 * 3), jsFloor (r 1 * 3), jsFloor (r 2 * 20) + 50⟩,
      ⟨jsFloor (r 3 * 3), jsFloor (r 4 * 3), jsFloor (r 5 * 15) + 45⟩ ]
  let fullTimeScores : List ScoreEntry :=
    [ ⟨jsFloor (r 6 * 5), jsFloor (r 7 * 5), jsFloor (r 8 * 20) + 50⟩,
      ⟨jsFloor (r 9 * 5), jsFloor (r 10 * 5), jsFloor (r 11 * 15) + 45⟩ ]
  let halfTimeWinner : String :=
    if r 12 > 3/5 then team1 else if r 13 > 1/2 then team2 else "Match nul"
  let i1 : ℕ := if r 12 > 3/5 then 13 else 14
  let halfTimeProbability : ℤ := jsFloor (r i1 * 20) + 55
  let fullTimeWinner : String :=
    if r (i1 + 1) > 3/5 then team1
    else if r (i1 + 2) > 1/2 then team2 else "Match nul"
  let i2 : ℕ := if r (i1 + 1) > 3/5 then i1 + 2 else i1 + 3
  let fullTimeProbability : ℤ := jsFloor (r i2 * 20) + 60
  let halfTimeGoals : ℚ :=
    [(1 : ℚ)/2, 3/2, 5/2, 7/2].getD (jsFloor (r (i2 + 1) * 4)).toNat 0
  let fullTimeGoals : ℚ :=
    [(1 : ℚ)/2, 3/2, 5/2, 7/2, 9/2].getD (jsFloor (r (i2 + 2) * 5)).toNat 0
  ⟨team1, team2, odds1, odds2, halfTimeScores, fullTimeScores,
    halfTimeWinner, halfTimeProbability, fullTimeWinner,
    fullTimeProbability, halfTimeGoals, fullTimeGoals⟩

end App

/-- The JavaScript toFixed(1) rounding on a nonnegative number, modelled as
the value of the produced decimal string: round to the nearest tenth,
ties toward the larger value. -/
def jsToFixed1 (q : ℚ) : ℚ := (Int.floor (q * 10 + 1/2) : ℚ) / 10

namespace Part0

/-- Result object of generatePrediction in src/unnamed/part_000
(lines 317-390). -/
structure Prediction where
  team1 : String
  team2 : String
  odds1 : String
  odds2 : String
  direct_matches : ℤ
  half_time_scores : List ScoreEntry
  full_time_scores : List ScoreEntry
  winner_half_time_team : String
  winner_half_time_probability : ℤ
  winner_full_time_team : String
  winner_full_time_probability : ℤ
  goals_half_time : ℚ
  goals_full_time : ℚ
  avg_goals_half_time : ℚ
  avg_goals_full_time : ℚ
  confidence_level : ℤ
  deriving DecidableEq, Repr

/-- generatePrediction from src/unnamed/part_000 lines 317-390.  The draw
consumption here is branch free: the two winner draws are stored in local
variables (halfTimeWinnerRandom at index 12, fullTimeWinnerRandom at 13)
before being compared, the goal thresholds use draws 14 and 15, and the
returned object literal consumes draws 16 to 21 in field order. -/
def generatePrediction (team1 team2 odds1 odds2 : String) (r : Rng) :
    Prediction :=
  let half_time_scores : List ScoreEntry :=
    [ ⟨jsFloor (r 0 * 3), jsFloor (r 1 * 3), jsFloor (r 2 * 30) + 60⟩,
      ⟨jsFloor (r 3 * 3), jsFloor (r 4 * 3), jsFloor (r 5 * 20) + 50⟩ ]
  let full_time_scores : List ScoreEntry :=
    [ ⟨jsFloor (r 6 * 5), jsFloor (r 7 * 5), jsFloor (r 8 * 30) + 60⟩,
      ⟨jsFloor (r 9 * 5), jsFloor (r 10 * 5), jsFloor (r 11 * 20) + 50⟩ ]
  let halfTimeWinner : String :=
    if r 12 < 2/5 then team1 else if r 12 < 4/5 then team2 else "Nul"
  let fullTimeWinner : String :=
    if r 13 < 2/5 then team1 else if r 13 < 4/5 then team2 else "Nul"
  let halfTimeGoals : ℚ :=
    [(1 : ℚ)/2, 3/2, 5/2, 7/2].getD (jsFloor (r 14 * 4)).toNat 0
  let fullTimeGoals : ℚ :=
    [(1 : ℚ)/2, 3/2, 5/2, 7/2, 9/2, 11/2].getD (jsFloor (r 15 * 6)).toNat 0
  { team1 := team1
    team2 := team2
    odds1 := odds1
    odds2 := odds2
    direct_matches := jsFloor (r 16 * 50) + 10
    half_time_scores := half_time_scores
    full_time_scores := full_time_scores
    winner_half_time_team := halfTimeWinner
    winner_half_time_probability := jsFloor (r 17 * 30) + 60
    winner_full_time_team := fullTimeWinner
    winner_full_time_probability := jsFloor (r 18 * 30) + 60
    goals_half_time := halfTimeGoals
    goals_full_time := fullTimeGoals
    avg_goals_half_time := jsToFixed1 (r 19 * 3 + 1)
    avg_goals_full_time := jsToFixed1 (r 20 * 5 + 2)
    confidence_level := jsFloor (r 21 * 30) + 60 }

end Part0

/-- The JavaScript expression (s || null) on a string: the empty string is
falsy and yields null, every other string is returned unchanged. -/
def jsOrNull (s : String) : Option String :=
  if s = "" then none else some s

namespace Part1

/-- Result object of generatePrediction in src/unnamed/part_001
(lines 216-253).  This variant has three scorelines per period, no goal
threshold fields, and echoes each odds value through (odds || null). -/
structure Prediction where
  team1 : String
  team2 : String
  odds1 : Option String
  odds2 : Option String
  direct_matches : ℤ
  half_time_scores : List ScoreEntry
  full_time_scores : List ScoreEntry
  winner_half_time_team : String
  winner_half_time_probability : ℤ
  winner_full_time_team : String
  winner_full_time_probability : ℤ
  avg_goals_half_time : ℚ
  avg_goals_full_time : ℚ
  confidence_level : ℤ
  deriving DecidableEq, Repr

/-- generatePrediction from src/unnamed/part_001 lines 216-253.  All the
draws happen inside the returned object literal, in field order:
direct_matches takes draw 0, the three half-time scorelines take draws
1 to 9, the three full-time scorelines take draws 10 to 18, then each
winner ternary takes one or two draws followed by one probability draw
(offsets j1 and j2), and the averages and confidence level finish. -/
def generatePrediction (team1 team2 odds1 odds2 : String) (r : Rng) :
    Prediction :=
  let winnerHT : String :=
    if r 19 > 3/5 then team1 else if r 20 > 1/2 then team2 else "Nul"
  let j1 : ℕ := if r 19 > 3/5 then 20 else 21
  let winnerFT : String :=
    if r (j1 + 1) > 3/5 then team1
    else if r (j1 + 2) > 1/2 then team2 else "Nul"
  let j2 : ℕ := if r (j1 + 1) > 3/5 then j1 + 2 else j1 + 3
  { team1 := team1
    team2 := team2
    odds1 := jsOrNull odds1
    odds2 := jsOrNull odds2
    direct_matches := jsFloor (r 0 * 50) + 10
    half_time_scores :=
      [ ⟨jsFloor (r 1 * 3), jsFloor (r 2 * 3), jsFloor (r 3 * 30) + 60⟩,
        ⟨jsFloor (r 4 * 3), jsFloor (r 5 * 3), jsFloor (r 6 * 20) + 50⟩,
        ⟨jsFloor (r 7 * 3), jsFloor (r 8 * 2), jsFloor (r 9 * 20) + 40⟩ ]
    full_time_scores :=
      [ ⟨jsFloor (r 10 * 5), jsFloor (r 11 * 5), jsFloor (r 12 * 30) + 60⟩,
        ⟨jsFloor (r 13 * 5), jsFloor (r 14 * 5), jsFloor (r 15 * 20) + 50⟩,
        ⟨jsFloor (r 16 * 4), jsFloor (r 17 * 4), jsFloor (r 18 * 20) + 40⟩ ]
    winner_half_time_team := winnerHT
    winner_half_time_probability := jsFloor (r j1 * 30) + 60
    winner_full_time_team := winnerFT
    winner_full_time_probability := jsFloor (r j2 * 30) + 60
    avg_goals_half_time := jsToFixed1 (r (j2 + 1) * 3 + 1)
    avg_goals_full_time := jsToFixed1 (r (j2 + 2) * 5 + 2)
    confidence_level := jsFloor (r (j2 + 3) * 30) + 60 }

end Part1

namespace ApiSim

/-- Goal line recommendation of the simulated API response in app.js
(second variant): a threshold line, an over/under flag and a
percentage. -/
structure GoalLine where
  line : ℚ
  isOver : Bool
  percentage : ℤ
  deriving DecidableEq, Repr

/-- Simulated prediction object built by fetchPredictionFromAPI in app.js
(second variant, lines 742-807). -/
structure Prediction where
  team1 : String
  team2 : String
  halfTimeScores : List ScoreEntry
  fullTimeScores : List ScoreEntry
  halfTimeWinner_team : String
  halfTimeWinner_probability : ℤ
  fullTimeWinner_team : String
  fullTimeWinner_probability : ℤ
  halfTimeGoals : GoalLine
  fullTimeGoals : GoalLine
  deriving DecidableEq, Repr

/-- The simulated API prediction of fetchPredictionFromAPI, app.js second
variant lines 773-803.  Draws 0 to 11 build the scorelines; each winner
ternary consumes one or two draws (offsets k1 and k2) followed by one
probability draw; each goal line consumes a line draw, an isOver draw
and a percentage draw. -/
def fetchPredictionFromAPI (team1 team2 : String) (r : Rng) : Prediction :=
  let winnerHT : String :=
    if r 12 > 3/5 then team1 else if r 13 > 1/2 then team2 else "Match nul"
  let k1 : ℕ := if r 12 > 3/5 then 13 else 14
  let winnerFT : String :=
    if r (k1 + 1) > 3/5 then team1
    else if r (k1 + 2) > 1/2 then team2 else "Match nul"
  let k2 : ℕ := if r (k1 + 1) > 3/5 then k1 + 2 else k1 + 3
  { team1 := team1
    team2 := team2
    halfTimeScores :=
      [ ⟨jsFloor (r 0 * 2), jsFloor (r 1 * 2), jsFloor (r 2 * 15) + 65⟩,
        ⟨jsFloor (r 3 * 2), jsFloor (r 4 * 2), jsFloor (r 5 * 10) + 55⟩ ]
    fullTimeScores :=
      [ ⟨jsFloor (r 6 * 3), jsFloor (r 7 * 3), jsFloor (r 8 * 15) + 65⟩,
        ⟨jsFloor (r 9 * 3), jsFloor (r 10 * 3), jsFloor (r 11 * 10) + 55⟩ ]
    halfTimeWinner_team := winnerHT
    halfTimeWinner_probability := jsFloor (r k1 * 15) + 65
    fullTimeWinner_team := winnerFT
    fullTimeWinner_probability := jsFloor (r k2 * 15) + 65
    halfTimeGoals :=
      { line := [(1 : ℚ)/2, 3/2, 5/2].getD (jsFloor (r (k2 + 1) * 3)).toNat 0
        isOver := r (k2 + 2) > 1/2
        percentage := jsFloor (r (k2 + 3) * 15) + 65 }
    fullTimeGoals :=
      { line := [(3 : ℚ)/2, 5/2, 7/2, 9/2].getD (jsFloor (r (k2 + 4) * 4)).toNat 0
        isOver := r (k2 + 5) > 1/2
        percentage := jsFloor (r (k2 + 6) * 15) + 65 } }

end ApiSim

/-! ### The odds validation performed by the click handlers

Both app.js (initEventHandlers, lines 81-108) and part_000 (initEvents,
lines 95-124) guard the call to the prediction function with

  if (!odds1 || !odds2) { alert(...); return; }
  if (parseFloat(odds1) < 1.01 || parseFloat(odds2) < 1.01) { alert(...); return; }

The odds fields are input strings.  We model the JavaScript builtin
parseFloat by a parser for an optional sign followed by decimal digits
with an optional fractional part (no exponent, no leading whitespace:
the inputs of interest carry neither), returning none for NaN, and we
model the JavaScript comparison NaN < c, which is false, by jsLtNaN. -/

/-- Value of a maximal run of leading decimal digits, together with the run
length and the unconsumed rest of the input. -/
def takeDigits : List Char → ℕ × ℕ × List Char
  | [] => (0, 0, [])
  | c :: cs =>
    if c.isDigit then
      let (v, n, rest) := takeDigits cs
      ((c.toNat - 48) * 10 ^ n + v, n + 1, rest)
    else (0, 0, c :: cs)

/-- Parse an unsigned decimal literal prefix: digits with an optional
fractional part.  Returns none when no digit is present before or after
the point, matching parseFloat returning NaN. -/
def parseUnsigned (s : List Char) : Option ℚ :=
  let (ip, ni, rest) := takeDigits s
  match rest with
  | '.' :: rest2 =>
    let (fp, nf, _) := takeDigits rest2
    if ni = 0 ∧ nf = 0 then none
    else some ((ip : ℚ) + (fp : ℚ) / 10 ^ nf)
  | _ => if ni = 0 then none else some (ip : ℚ)

/-- Model of the JavaScript builtin parseFloat on the odds input strings:
an optional sign followed by an unsigned decimal literal; none models
NaN. -/
def parseFloat (s : List Char) : Option ℚ :=
  match s with
  | '-' :: rest => (parseUnsigned rest).map (fun q => -q)
  | '+' :: rest => parseUnsigned rest
  | _ => parseUnsigned s

/-- The JavaScript comparison (x < c) where x may be NaN: any comparison
against NaN is false. -/
def jsLtNaN (x : Option ℚ) (c : ℚ) : Bool :=
  match x with
  | none => false
  | some v => decide (v < c)

/-- Whether the generate-prediction click handler reaches the prediction
call for the given odds input strings: true exactly when neither early
return (empty odds, or parseFloat below 1.01) fires.  From app.js
initEventHandlers lines 87-96 and part_000 initEvents lines 103-111. -/
def oddsAccepted (odds1 odds2 : List Char) : Bool :=
  if odds1.isEmpty || odds2.isEmpty then false
  else if jsLtNaN (parseFloat odds1) (101/100) ||
          jsLtNaN (parseFloat odds2) (101/100) then false
  else true

/-! ### Helper lemmas -/

/-- A Math.floor of a valid draw scaled by a positive integer multiplier n
is an integer in [0, n). -/
theorem jsFloorMulBounds (q m : ℚ) (n : ℤ) (h0 : 0 ≤ q) (h1 : q < 1)
    (hmn : m = (n : ℚ)) (hn : 0 < n) :
    0 ≤ jsFloor (q * m) ∧ jsFloor (q * m) < n := by
  subst hmn
  constructor
  · exact Int.floor_nonneg.mpr (mul_nonneg h0 (by exact_mod_cast hn.le))
  · apply Int.floor_lt.mpr
    calc q * (n : ℚ) < 1 * (n : ℚ) := by
          apply mul_lt_mul_of_pos_right h1
          exact_mod_cast hn
    _ = (n : ℚ) := one_mul _

/-- A percentage of the shape Math.floor(draw * n) + c lies in any band
[lo, hi] containing [c, n - 1 + c], for a valid draw. -/
theorem confInBand (q m : ℚ) (n c lo hi : ℤ) (h0 : 0 ≤ q) (h1 : q < 1)
    (hmn : m = (n : ℚ)) (hn : 0 < n) (hlo : lo ≤ c) (hhi : n + c ≤ hi + 1) :
    lo ≤ jsFloor (q * m) + c ∧ jsFloor (q * m) + c ≤ hi := by
  obtain ⟨ha, hb⟩ := jsFloorMulBounds q m n h0 h1 hmn hn
  exact ⟨by linarith, by linarith⟩

/-- Indexing a list within bounds through getD returns one of its
elements. -/
theorem getD_mem_of_lt {α : Type} :
    ∀ (l : List α) (i : ℕ) (d : α), i < l.length → l.getD i d ∈ l
  | a :: _, 0, _, _ => by simp
  | a :: t, i + 1, d, h => by
    simp only [List.getD_cons_succ]
    exact List.mem_cons_of_mem a
      (getD_mem_of_lt t i d (by simpa using h))

/-- Random indexing of a fixed list, as in the source expression
list[Math.floor(Math.random() * list.length)], returns a member of the
list whenever the draw is valid. -/
theorem getD_floor_mem (l : List ℚ) (q m : ℚ) (h0 : 0 ≤ q) (h1 : q < 1)
    (hmn : m = ((l.length : ℤ) : ℚ)) (hn : 0 < (l.length : ℤ)) :
    l.getD (jsFloor (q * m)).toNat 0 ∈ l := by
  obtain ⟨ha, hb⟩ := jsFloorMulBounds q m (l.length : ℤ) h0 h1 hmn hn
  exact getD_mem_of_lt _ _ _ (by omega)

/-- Evaluation of jsFloor at a rational that is a whole number. -/
theorem jsFloor_int (q : ℚ) (z : ℤ) (h : q = (z : ℚ)) : jsFloor q = z := by
  rw [jsFloor, h]
  exact Int.floor_intCast z

/-- A string accepted by the parseFloat model is nonempty. -/
theorem parseFloat_some_not_empty (s : List Char) (v : ℚ)
    (h : parseFloat s = some v) : s.isEmpty = false := by
  cases s with
  | nil => simp [parseFloat, parseUnsigned, takeDigits] at h
  | cons c cs => rfl

/-- jsLtNaN on a real number compares normally. -/
theorem jsLtNaN_some (v c : ℚ) : jsLtNaN (some v) c = decide (v < c) := rfl

/-- jsLtNaN on NaN is always false. -/
theorem jsLtNaN_none (c : ℚ) : jsLtNaN none c = false := rfl

/-- Concrete value of the parseFloat model on "2.0". -/
theorem parseFloat_two : parseFloat "2.0".toList = some 2 := by
  have e : parseFloat "2.0".toList =
      some (((2 : ℕ) : ℚ) + ((0 : ℕ) : ℚ) / 10 ^ 1) := rfl
  rw [e]; norm_num

/-- Concrete value of the parseFloat model on "1.01". -/
theorem parseFloat_boundary : parseFloat "1.01".toList = some (101/100) := by
  have e : parseFloat "1.01".toList =
      some (((1 : ℕ) : ℚ) + ((1 : ℕ) : ℚ) / 10 ^ 2) := rfl
  rw [e]; norm_num

/-- Concrete value of the parseFloat model on "1.00". -/
theorem parseFloat_one : parseFloat "1.00".toList = some 1 := by
  have e : parseFloat "1.00".toList =
      some (((1 : ℕ) : ℚ) + ((0 : ℕ) : ℚ) / 10 ^ 2) := rfl
  rw [e]; norm_num

/-! ### Claims -/

/-- C7: the claim states that a non-empty non-numeric odds string is
rejected before the prediction operation is invoked.  The code disagrees:
parseFloat("abc") is NaN, the comparison NaN < 1.01 is false, so neither
guard fires and the handler proceeds to the prediction call.  This
theorem records the code behaviour at the failing input: the odds pair
("abc", "2.0") has a non-numeric first component, yet oddsAccepted is
true, meaning generatePrediction is reached. -/
theorem claim7_code_behavior :
    parseFloat "abc".toList = none ∧
    oddsAccepted "abc".toList "2.0".toList = true := by
  have p1 : parseFloat "abc".toList = none := rfl
  refine ⟨p1, ?_⟩
  simp only [oddsAccepted, p1, parseFloat_two, jsLtNaN_none, jsLtNaN_some]
  norm_num

/-- C8: odds strings both parsing to exactly 1.01 are accepted and the
prediction proceeds; an odds string parsing to a value strictly below
1.01 (such as 1.00) in either field causes rejection, so the prediction
call is never reached. -/
theorem claim8_theorem :
    (∀ o1 o2 : List Char,
      parseFloat o1 = some (101/100) → parseFloat o2 = some (101/100) →
      oddsAccepted o1 o2 = true) ∧
    (∀ (o1 o2 : List Char) (v : ℚ),
      parseFloat o1 = some v → v < 101/100 → oddsAccepted o1 o2 = false) ∧
    (∀ (o1 o2 : List Char) (v : ℚ),
      parseFloat o2 = some v → v < 101/100 → oddsAccepted o1 o2 = false) := by
  refine ⟨?_, ?_, ?_⟩
  · intro o1 o2 h1 h2
    have n1 := parseFloat_some_not_empty o1 _ h1
    have n2 := parseFloat_some_not_empty o2 _ h2
    simp [oddsAccepted, n1, n2, jsLtNaN, h1, h2]
  · intro o1 o2 v h1 hlt
    by_cases he : (o1.isEmpty || o2.isEmpty) = true
    · simp [oddsAccepted, he]
    · simp only [oddsAccepted, he]
      simp [jsLtNaN, h1, hlt]
  · intro o1 o2 v h2 hlt
    by_cases he : (o1.isEmpty || o2.isEmpty) = true
    · simp [oddsAccepted, he]
    · simp only [oddsAccepted, he]
      simp [jsLtNaN, h2, hlt]

/-- Witness for C8 at concrete inputs: "1.01"/"1.01" is accepted,
"1.00" is rejected. -/
theorem claim8_witness :
    oddsAccepted "1.01".toList "1.01".toList = true ∧
    oddsAccepted "1.00".toList "2.0".toList = false :=
  ⟨claim8_theorem.1 _ _ parseFloat_boundary parseFloat_boundary,
   claim8_theorem.2.1 _ _ 1 parseFloat_one (by norm_num)⟩

/-- C2 counterexample: the part_001 variant of generatePrediction, cited
by the claim, returns three scorelines per period, not two, at the
concrete request Arsenal vs Chelsea with odds "1.5"/"2.0" and the
all-zero draw stream. -/
theorem claim2_counterexample :
    ¬ ((Part1.generatePrediction "Arsenal" "Chelsea" "1.5" "2.0"
          (fun _ => 0)).half_time_scores.length = 2 ∧
       (Part1.generatePrediction "Arsenal" "Chelsea" "1.5" "2.0"
          (fun _ => 0)).full_time_scores.length = 2) := by
  decide

/-- C2 amended: the app.js and part_000 variants of generatePrediction
return exactly 2 scorelines per period (with one winner verdict, one
winner probability and one goal threshold per period as structure
fields); the part_001 variant returns exactly 3 scorelines per period. -/
theorem claim2_theorem (t1 t2 o1 o2 : String) (r : Rng) :
    (App.generatePrediction t1 t2 o1 o2 r).halfTimeScores.length = 2 ∧
    (App.generatePrediction t1 t2 o1 o2 r).fullTimeScores.length = 2 ∧
    (Part0.generatePrediction t1 t2 o1 o2 r).half_time_scores.length = 2 ∧
    (Part0.generatePrediction t1 t2 o1 o2 r).full_time_scores.length = 2 ∧
    (Part1.generatePrediction t1 t2 o1 o2 r).half_time_scores.length = 3 ∧
    (Part1.generatePrediction t1 t2 o1 o2 r).full_time_scores.length = 3 :=
  ⟨rfl, rfl, rfl, rfl, rfl, rfl⟩

/-- C3 counterexample: at the constant draw stream 29/30 the first
half-time scoreline confidence produced by part_000 generatePrediction is
89, outside the claimed band [45, 75]. -/
theorem claim3_counterexample :
    ¬ (∀ e ∈ (Part0.generatePrediction "Arsenal" "Chelsea" "1.5" "2.0"
          (fun _ => 29/30)).half_time_scores,
        45 ≤ e.confidence ∧ e.confidence ≤ 75) := by
  intro h
  have e1 : (Part0.generatePrediction "Arsenal" "Chelsea" "1.5" "2.0"
      (fun _ => 29/30)).half_time_scores =
      [ ⟨jsFloor ((29/30 : ℚ) * 3), jsFloor ((29/30 : ℚ) * 3),
          jsFloor ((29/30 : ℚ) * 30) + 60⟩,
        ⟨jsFloor ((29/30 : ℚ) * 3), jsFloor ((29/30 : ℚ) * 3),
          jsFloor ((29/30 : ℚ) * 20) + 50⟩ ] := rfl
  rw [e1] at h
  have h1 := h _ (List.mem_cons_self _ _)
  have hf : jsFloor ((29/30 : ℚ) * 30) = 29 := by
    have : (29/30 : ℚ) * 30 = 29 := by norm_num
    rw [jsFloor, this]
    exact_mod_cast Int.floor_intCast 29
  dsimp only at h1
  rw [hf] at h1
  omega

/-- C3 amended: every scoreline confidence produced by the cited
operations (app.js generatePrediction, part_000 generatePrediction and
the simulated API response of fetchPredictionFromAPI) is an integer in
the band [45, 89]; the upper end 75 of the claimed band is exceeded by
part_000 (up to 89) and by the simulated API response (up to 79). -/
theorem claim3_theorem (t1 t2 o1 o2 : String) (r : Rng) (hr : validRng r) :
    (∀ e ∈ (App.generatePrediction t1 t2 o1 o2 r).halfTimeScores,
        45 ≤ e.confidence ∧ e.confidence ≤ 89) ∧
    (∀ e ∈ (App.generatePrediction t1 t2 o1 o2 r).fullTimeScores,
        45 ≤ e.confidence ∧ e.confidence ≤ 89) ∧
    (∀ e ∈ (Part0.generatePrediction t1 t2 o1 o2 r).half_time_scores,
        45 ≤ e.confidence ∧ e.confidence ≤ 89) ∧
    (∀ e ∈ (Part0.generatePrediction t1 t2 o1 o2 r).full_time_scores,
        45 ≤ e.confidence ∧ e.confidence ≤ 89) ∧
    (∀ e ∈ (ApiSim.fetchPredictionFromAPI t1 t2 r).halfTimeScores,
        45 ≤ e.confidence ∧ e.confidence ≤ 89) ∧
    (∀ e ∈ (ApiSim.fetchPredictionFromAPI t1 t2 r).fullTimeScores,
        45 ≤ e.confidence ∧ e.confidence ≤ 89) := by
  refine ⟨?_, ?_, ?_, ?_, ?_, ?_⟩ <;> intro e he <;>
    simp only [App.generatePrediction, Part0.generatePrediction,
      ApiSim.fetchPredictionFromAPI, List.mem_cons,
      List.not_mem_nil, or_false] at he
  · rcases he with rfl | rfl
    · exact confInBand (r 2) 20 20 50 45 89 (hr 2).1 (hr 2).2 (by norm_num)
        (by norm_num) (by norm_num) (by norm_num)
    · exact confInBand (r 5) 15 15 45 45 89 (hr 5).1 (hr 5).2 (by norm_num)
        (by norm_num) (by norm_num) (by norm_num)
  · rcases he with rfl | rfl
    · exact confInBand (r 8) 20 20 50 45 89 (hr 8).1 (hr 8).2 (by norm_num)
        (by norm_num) (by norm_num) (by norm_num)
    · exact confInBand (r 11) 15 15 45 45 89 (hr 11).1 (hr 11).2 (by norm_num)
        (by norm_num) (by norm_num) (by norm_num)
  · rcases he with rfl | rfl
    · exact confInBand (r 2) 30 30 60 45 89 (hr 2).1 (hr 2).2 (by norm_num)
        (by norm_num) (by norm_num) (by norm_num)
    · exact confInBand (r 5) 20 20 50 45 89 (hr 5).1 (hr 5).2 (by norm_num)
        (by norm_num) (by norm_num) (by norm_num)
  · rcases he with rfl | rfl
    · exact confInBand (r 8) 30 30 60 45 89 (hr 8).1 (hr 8).2 (by norm_num)
        (by norm_num) (by norm_num) (by norm_num)
    · exact confInBand (r 11) 20 20 50 45 89 (hr 11).1 (hr 11).2 (by norm_num)
        (by norm_num) (by norm_num) (by norm_num)
  · rcases he with rfl | rfl
    · exact confInBand (r 2) 15 15 65 45 89 (hr 2).1 (hr 2).2 (by norm_num)
        (by norm_num) (by norm_num) (by norm_num)
    · exact confInBand (r 5) 10 10 55 45 89 (hr 5).1 (hr 5).2 (by norm_num)
        (by norm_num) (by norm_num) (by norm_num)
  · rcases he with rfl | rfl
    · exact confInBand (r 8) 15 15 65 45 89 (hr 8).1 (hr 8).2 (by norm_num)
        (by norm_num) (by norm_num) (by norm_num)
    · exact confInBand (r 11) 10 10 55 45 89 (hr 11).1 (hr 11).2 (by norm_num)
        (by norm_num) (by norm_num) (by norm_num)

/-- Witness for C3: the band holds for the top half-time entry at a
concrete request and the all-zero draw stream. -/
theorem claim3_witness :
    45 ≤ ((App.generatePrediction "Arsenal" "Chelsea" "1.5" "2.0"
        (fun _ => 0)).halfTimeScores.getD 0 ⟨0, 0, 0⟩).confidence ∧
    ((App.generatePrediction "Arsenal" "Chelsea" "1.5" "2.0"
        (fun _ => 0)).halfTimeScores.getD 0 ⟨0, 0, 0⟩).confidence ≤ 89 :=
  ( claim3_theorem "Arsenal" "Chelsea" "1.5" "2.0" (fun _ => 0)
    (fun _ => ⟨le_refl 0, by norm_num⟩)).1 _
    (getD_mem_of_lt _ _ _ (by decide))

/-- C4 counterexample: at the constant draw stream 29/30 the half-time
winner probability produced by part_000 generatePrediction is 89,
outside the claimed interval [50, 85]. -/
theorem claim4_counterexample :
    ¬ (50 ≤ (Part0.generatePrediction "Arsenal" "Chelsea" "1.5" "2.0"
          (fun _ => 29/30)).winner_half_time_probability ∧
       (Part0.generatePrediction "Arsenal" "Chelsea" "1.5" "2.0"
          (fun _ => 29/30)).winner_half_time_probability ≤ 85) := by
  intro h
  have e : (Part0.generatePrediction "Arsenal" "Chelsea" "1.5" "2.0"
      (fun _ => 29/30)).winner_half_time_probability =
      jsFloor ((29/30 : ℚ) * 30) + 60 := rfl
  have hf : jsFloor ((29/30 : ℚ) * 30) = 29 := by
    have h29 : (29/30 : ℚ) * 30 = 29 := by norm_num
    rw [jsFloor, h29]
    exact_mod_cast Int.floor_intCast 29
  rw [e, hf] at h
  omega

/-- C4 amended: every winner probability reported by app.js
generatePrediction and part_000 generatePrediction is an integer in
[50, 89]; the claimed upper end 85 is exceeded by part_000 (up to
89). -/
theorem claim4_theorem (t1 t2 o1 o2 : String) (r : Rng) (hr : validRng r) :
    (50 ≤ (App.generatePrediction t1 t2 o1 o2 r).halfTimeProbability ∧
      (App.generatePrediction t1 t2 o1 o2 r).halfTimeProbability ≤ 89) ∧
    (50 ≤ (App.generatePrediction t1 t2 o1 o2 r).fullTimeProbability ∧
      (App.generatePrediction t1 t2 o1 o2 r).fullTimeProbability ≤ 89) ∧
    (50 ≤ (Part0.generatePrediction t1 t2 o1 o2 r).winner_half_time_probability ∧
      (Part0.generatePrediction t1 t2 o1 o2 r).winner_half_time_probability ≤ 89) ∧
    (50 ≤ (Part0.generatePrediction t1 t2 o1 o2 r).winner_full_time_probability ∧
      (Part0.generatePrediction t1 t2 o1 o2 r).winner_full_time_probability ≤ 89) := by
  refine ⟨?_, ?_, ?_, ?_⟩
  · exact confInBand _ 20 20 55 50 89 (hr _).1 (hr _).2 (by norm_num)
      (by norm_num) (by norm_num) (by norm_num)
  · exact confInBand _ 20 20 60 50 89 (hr _).1 (hr _).2 (by norm_num)
      (by norm_num) (by norm_num) (by norm_num)
  · exact confInBand (r 17) 30 30 60 50 89 (hr 17).1 (hr 17).2 (by norm_num)
      (by norm_num) (by norm_num) (by norm_num)
  · exact confInBand (r 18) 30 30 60 50 89 (hr 18).1 (hr 18).2 (by norm_num)
      (by norm_num) (by norm_num) (by norm_num)

/-- Witness for C4 at a concrete request and the all-zero draw stream. -/
theorem claim4_witness :
    50 ≤ (App.generatePrediction "Arsenal" "Chelsea" "1.5" "2.0"
        (fun _ => 0)).halfTimeProbability ∧
    (App.generatePrediction "Arsenal" "Chelsea" "1.5" "2.0"
        (fun _ => 0)).halfTimeProbability ≤ 89 :=
  ( claim4_theorem "Arsenal" "Chelsea" "1.5" "2.0" (fun _ => 0)
    (fun _ => ⟨le_refl 0, by norm_num⟩)).1

/-- C9: every percentage produced by the cited generators (each scoreline
confidence, each winner probability, the part_000 overall confidence
level, and the winner and goal-line percentages of the simulated API
response) is an integer in [0, 100]; each is obtained as a floor of a
scaled draw plus an integer offset, so floor-rounded by construction. -/
theorem claim9_theorem (t1 t2 o1 o2 : String) (r : Rng) (hr : validRng r) :
    (∀ e ∈ (App.generatePrediction t1 t2 o1 o2 r).halfTimeScores,
        0 ≤ e.confidence ∧ e.confidence ≤ 100) ∧
    (∀ e ∈ (App.generatePrediction t1 t2 o1 o2 r).fullTimeScores,
        0 ≤ e.confidence ∧ e.confidence ≤ 100) ∧
    (0 ≤ (App.generatePrediction t1 t2 o1 o2 r).halfTimeProbability ∧
      (App.generatePrediction t1 t2 o1 o2 r).halfTimeProbability ≤ 100) ∧
    (0 ≤ (App.generatePrediction t1 t2 o1 o2 r).fullTimeProbability ∧
      (App.generatePrediction t1 t2 o1 o2 r).fullTimeProbability ≤ 100) ∧
    (∀ e ∈ (Part0.generatePrediction t1 t2 o1 o2 r).half_time_scores,
        0 ≤ e.confidence ∧ e.confidence ≤ 100) ∧
    (∀ e ∈ (Part0.generatePrediction t1 t2 o1 o2 r).full_time_scores,
        0 ≤ e.confidence ∧ e.confidence ≤ 100) ∧
    (0 ≤ (Part0.generatePrediction t1 t2 o1 o2 r).winner_half_time_probability ∧
      (Part0.generatePrediction t1 t2 o1 o2 r).winner_half_time_probability ≤ 100) ∧
    (0 ≤ (Part0.generatePrediction t1 t2 o1 o2 r).winner_full_time_probability ∧
      (Part0.generatePrediction t1 t2 o1 o2 r).winner_full_time_probability ≤ 100) ∧
    (0 ≤ (Part0.generatePrediction t1 t2 o1 o2 r).confidence_level ∧
      (Part0.generatePrediction t1 t2 o1 o2 r).confidence_level ≤ 100) ∧
    (0 ≤ (ApiSim.fetchPredictionFromAPI t1 t2 r).halfTimeWinner_probability ∧
      (ApiSim.fetchPredictionFromAPI t1 t2 r).halfTimeWinner_probability ≤ 100) ∧
    (0 ≤ (ApiSim.fetchPredictionFromAPI t1 t2 r).fullTimeWinner_probability ∧
      (ApiSim.fetchPredictionFromAPI t1 t2 r).fullTimeWinner_probability ≤ 100) ∧
    (0 ≤ (ApiSim.fetchPredictionFromAPI t1 t2 r).halfTimeGoals.percentage ∧
      (ApiSim.fetchPredictionFromAPI t1 t2 r).halfTimeGoals.percentage ≤ 100) ∧
    (0 ≤ (ApiSim.fetchPredictionFromAPI t1 t2 r).fullTimeGoals.percentage ∧
      (ApiSim.fetchPredictionFromAPI t1 t2 r).fullTimeGoals.percentage ≤ 100) := by
  refine ⟨?_, ?_, ?_, ?_, ?_, ?_, ?_, ?_, ?_, ?_, ?_, ?_, ?_⟩
  · intro e he
    simp only [App.generatePrediction, List.mem_cons,
      List.not_mem_nil, or_false] at he
    rcases he with rfl | rfl
    · exact confInBand (r 2) 20 20 50 0 100 (hr 2).1 (hr 2).2 (by norm_num)
        (by norm_num) (by norm_num) (by norm_num)
    · exact confInBand (r 5) 15 15 45 0 100 (hr 5).1 (hr 5).2 (by norm_num)
        (by norm_num) (by norm_num) (by norm_num)
  · intro e he
    simp only [App.generatePrediction, List.mem_cons,
      List.not_mem_nil, or_false] at he
    rcases he with rfl | rfl
    · exact confInBand (r 8) 20 20 50 0 100 (hr 8).1 (hr 8).2 (by norm_num)
        (by norm_num) (by norm_num) (by norm_num)
    · exact confInBand (r 11) 15 15 45 0 100 (hr 11).1 (hr 11).2 (by norm_num)
        (by norm_num) (by norm_num) (by norm_num)
  · exact confInBand _ 20 20 55 0 100 (hr _).1 (hr _).2 (by norm_num)
      (by norm_num) (by norm_num) (by norm_num)
  · exact confInBand _ 20 20 60 0 100 (hr _).1 (hr _).2 (by norm_num)
      (by norm_num) (by norm_num) (by norm_num)
  · intro e he
    simp only [Part0.generatePrediction, List.mem_cons,
      List.not_mem_nil, or_false] at he
    rcases he with rfl | rfl
    · exact confInBand (r 2) 30 30 60 0 100 (hr 2).1 (hr 2).2 (by norm_num)
        (by norm_num) (by norm_num) (by norm_num)
    · exact confInBand (r 5) 20 20 50 0 100 (hr 5).1 (hr 5).2 (by norm_num)
        (by norm_num) (by norm_num) (by norm_num)
  · intro e he
    simp only [Part0.generatePrediction, List.mem_cons,
      List.not_mem_nil, or_false] at he
    rcases he with rfl | rfl
    · exact confInBand (r 8) 30 30 60 0 100 (hr 8).1 (hr 8).2 (by norm_num)
        (by norm_num) (by norm_num) (by norm_num)
    · exact confInBand (r 11) 20 20 50 0 100 (hr 11).1 (hr 11).2 (by norm_num)
        (by norm_num) (by norm_num) (by norm_num)
  · exact confInBand (r 17) 30 30 60 0 100 (hr 17).1 (hr 17).2 (by norm_num)
      (by norm_num) (by norm_num) (by norm_num)
  · exact confInBand (r 18) 30 30 60 0 100 (hr 18).1 (hr 18).2 (by norm_num)
      (by norm_num) (by norm_num) (by norm_num)
  · exact confInBand (r 21) 30 30 60 0 100 (hr 21).1 (hr 21).2 (by norm_num)
      (by norm_num) (by norm_num) (by norm_num)
  · exact confInBand _ 15 15 65 0 100 (hr _).1 (hr _).2 (by norm_num)
      (by norm_num) (by norm_num) (by norm_num)
  · exact confInBand _ 15 15 65 0 100 (hr _).1 (hr _).2 (by norm_num)
      (by norm_num) (by norm_num) (by norm_num)
  · exact confInBand _ 15 15 65 0 100 (hr _).1 (hr _).2 (by norm_num)
      (by norm_num) (by norm_num) (by norm_num)
  · exact confInBand _ 15 15 65 0 100 (hr _).1 (hr _).2 (by norm_num)
      (by norm_num) (by norm_num) (by norm_num)

/-- Witness for C9 at a concrete request and the all-zero draw stream. -/
theorem claim9_witness :
    0 ≤ (App.generatePrediction "Arsenal" "Chelsea" "1.5" "2.0"
        (fun _ => 0)).halfTimeProbability ∧
    (App.generatePrediction "Arsenal" "Chelsea" "1.5" "2.0"
        (fun _ => 0)).halfTimeProbability ≤ 100 :=
  ( claim9_theorem "Arsenal" "Chelsea" "1.5" "2.0" (fun _ => 0)
    (fun _ => ⟨le_refl 0, by norm_num⟩)).2.2.1

/-- C5 counterexample: two different draw streams yield two different
goal-line recommendations for the identical valid request in app.js
generatePrediction, so the recommendation is a random choice, not a
deterministic scan of a percentage table. -/
theorem claim5_counterexample :
    (App.generatePrediction "Arsenal" "Chelsea" "1.5" "2.0"
        (fun _ => 0)).halfTimeGoals ≠
    (App.generatePrediction "Arsenal" "Chelsea" "1.5" "2.0"
        (fun _ => 1/2)).halfTimeGoals := by
  have e0 : (App.generatePrediction "Arsenal" "Chelsea" "1.5" "2.0"
      (fun _ => 0)).halfTimeGoals = 1/2 := by
    have e : (App.generatePrediction "Arsenal" "Chelsea" "1.5" "2.0"
        (fun _ => 0)).halfTimeGoals =
        [(1 : ℚ)/2, 3/2, 5/2, 7/2].getD (jsFloor ((0 : ℚ) * 4)).toNat 0 := rfl
    rw [e]
    have hz : jsFloor ((0 : ℚ) * 4) = 0 := by
      rw [jsFloor]; norm_num
    rw [hz]
    rfl
  have e1 : (App.generatePrediction "Arsenal" "Chelsea" "1.5" "2.0"
      (fun _ => 1/2)).halfTimeGoals = 5/2 := by
    have e : (App.generatePrediction "Arsenal" "Chelsea" "1.5" "2.0"
        (fun _ => 1/2)).halfTimeGoals =
        [(1 : ℚ)/2, 3/2, 5/2, 7/2].getD (jsFloor ((1/2 : ℚ) * 4)).toNat 0 := rfl
    rw [e]
    have h2 : jsFloor ((1/2 : ℚ) * 4) = 2 := by
      have hv : (1/2 : ℚ) * 4 = 2 := by norm_num
      rw [jsFloor, hv]
      exact_mod_cast Int.floor_intCast 2
    rw [h2]
    rfl
  rw [e0, e1]
  norm_num

/-- C5 amended: in app.js and part_000 there is no goal-line percentage
table; the per-period goal recommendation is the entry of a fixed
threshold list selected by an independent random draw (index
floor(draw times list length)), hence always a member of that list. -/
theorem claim5_theorem (t1 t2 o1 o2 : String) (r : Rng) (hr : validRng r) :
    (App.generatePrediction t1 t2 o1 o2 r).halfTimeGoals ∈
      [(1 : ℚ)/2, 3/2, 5/2, 7/2] ∧
    (App.generatePrediction t1 t2 o1 o2 r).fullTimeGoals ∈
      [(1 : ℚ)/2, 3/2, 5/2, 7/2, 9/2] ∧
    (Part0.generatePrediction t1 t2 o1 o2 r).goals_half_time ∈
      [(1 : ℚ)/2, 3/2, 5/2, 7/2] ∧
    (Part0.generatePrediction t1 t2 o1 o2 r).goals_full_time ∈
      [(1 : ℚ)/2, 3/2, 5/2, 7/2, 9/2, 11/2] := by
  refine ⟨?_, ?_, ?_, ?_⟩
  · exact getD_floor_mem _ (r _) 4 (hr _).1 (hr _).2 (by norm_num) (by norm_num)
  · exact getD_floor_mem _ (r _) 5 (hr _).1 (hr _).2 (by norm_num) (by norm_num)
  · exact getD_floor_mem _ (r 14) 4 (hr 14).1 (hr 14).2 (by norm_num)
      (by norm_num)
  · exact getD_floor_mem _ (r 15) 6 (hr 15).1 (hr 15).2 (by norm_num)
      (by norm_num)

/-- Witness for C5 at a concrete request and the all-zero draw stream. -/
theorem claim5_witness :
    (App.generatePrediction "Arsenal" "Chelsea" "1.5" "2.0"
        (fun _ => 0)).halfTimeGoals ∈ [(1 : ℚ)/2, 3/2, 5/2, 7/2] :=
  ( claim5_theorem "Arsenal" "Chelsea" "1.5" "2.0" (fun _ => 0)
    (fun _ => ⟨le_refl 0, by norm_num⟩)).1

/-- C6 counterexample: at the stream whose first draw is 2/3 and whose
other draws are 0, the top-ranked half-time scoreline of app.js
generatePrediction is 2:0 (team1 strictly ahead), yet the reported
half-time winner is the draw verdict, not team1: the verdict is not
derived from the top-ranked scoreline. -/
theorem claim6_counterexample :
    ¬ (((App.generatePrediction "Arsenal" "Chelsea" "1.5" "2.0"
          (fun i => if i = 0 then 2/3 else 0)).halfTimeScores.getD 0
            ⟨0, 0, 0⟩).away <
        ((App.generatePrediction "Arsenal" "Chelsea" "1.5" "2.0"
          (fun i => if i = 0 then 2/3 else 0)).halfTimeScores.getD 0
            ⟨0, 0, 0⟩).home →
       (App.generatePrediction "Arsenal" "Chelsea" "1.5" "2.0"
          (fun i => if i = 0 then 2/3 else 0)).halfTimeWinner = "Arsenal") := by
  intro f
  have etop : (App.generatePrediction "Arsenal" "Chelsea" "1.5" "2.0"
      (fun i => if i = 0 then 2/3 else 0)).halfTimeScores.getD 0 ⟨0, 0, 0⟩ =
      ⟨jsFloor ((2/3 : ℚ) * 3), jsFloor ((0 : ℚ) * 3),
        jsFloor ((0 : ℚ) * 20) + 50⟩ := rfl
  have ew : (App.generatePrediction "Arsenal" "Chelsea" "1.5" "2.0"
      (fun i => if i = 0 then 2/3 else 0)).halfTimeWinner =
      (if (0 : ℚ) > 3/5 then "Arsenal"
       else if (0 : ℚ) > 1/2 then "Chelsea" else "Match nul") := rfl
  have hlead : ((App.generatePrediction "Arsenal" "Chelsea" "1.5" "2.0"
      (fun i => if i = 0 then 2/3 else 0)).halfTimeScores.getD 0
        ⟨0, 0, 0⟩).away <
      ((App.generatePrediction "Arsenal" "Chelsea" "1.5" "2.0"
      (fun i => if i = 0 then 2/3 else 0)).halfTimeScores.getD 0
        ⟨0, 0, 0⟩).home := by
    rw [etop]
    dsimp only
    rw [jsFloor_int ((2/3 : ℚ) * 3) 2 (by norm_num),
      jsFloor_int ((0 : ℚ) * 3) 0 (by norm_num)]
    norm_num
  have hB := f hlead
  rw [ew, if_neg (by norm_num), if_neg (by norm_num)] at hB
  exact absurd hB (by decide)

/-- C6 amended: the winner verdict is decided by dedicated random draws
and is independent of the scorelines.  In app.js the half-time winner is
team1 when draw 12 exceeds 0.6, else team2 when draw 13 exceeds 0.5,
else the draw verdict; in part_000 each winner is team1 when its single
draw is below 0.4, team2 when it is below 0.8, else the draw verdict. -/
theorem claim6_theorem (t1 t2 o1 o2 : String) (r : Rng) :
    (App.generatePrediction t1 t2 o1 o2 r).halfTimeWinner =
      (if r 12 > 3/5 then t1 else if r 13 > 1/2 then t2 else "Match nul") ∧
    (Part0.generatePrediction t1 t2 o1 o2 r).winner_half_time_team =
      (if r 12 < 2/5 then t1 else if r 12 < 4/5 then t2 else "Nul") ∧
    (Part0.generatePrediction t1 t2 o1 o2 r).winner_full_time_team =
      (if r 13 < 2/5 then t1 else if r 13 < 4/5 then t2 else "Nul") :=
  ⟨rfl, rfl, rfl⟩

/-- C10: for a fixed draw stream, two requests differing only in their
odds strings produce identical computed content in every variant: the
result equals the other request's result with only the odds fields
replaced, and those fields merely echo the inputs (in part_001 through
the expression odds or null, which on the nonempty odds of a valid
request is the input itself). -/
theorem claim10_theorem (t1 t2 o1 o2 p1 p2 : String) (r : Rng)
    (h1 : p1 ≠ "") (h2 : p2 ≠ "") :
    App.generatePrediction t1 t2 p1 p2 r =
      { App.generatePrediction t1 t2 o1 o2 r with odds1 := p1, odds2 := p2 } ∧
    Part0.generatePrediction t1 t2 p1 p2 r =
      { Part0.generatePrediction t1 t2 o1 o2 r with odds1 := p1, odds2 := p2 } ∧
    Part1.generatePrediction t1 t2 p1 p2 r =
      { Part1.generatePrediction t1 t2 o1 o2 r with
          odds1 := some p1, odds2 := some p2 } := by
  refine ⟨rfl, rfl, ?_⟩
  simp [Part1.generatePrediction, jsOrNull, h1, h2]

/-- Witness for C10 at concrete teams, odds and the all-zero stream. -/
theorem claim10_witness :
    App.generatePrediction "Arsenal" "Chelsea" "3.0" "4.0" (fun _ => 0) =
      { App.generatePrediction "Arsenal" "Chelsea" "1.5" "2.0" (fun _ => 0)
          with odds1 := "3.0", odds2 := "4.0" } :=
  ( claim10_theorem "Arsenal" "Chelsea" "1.5" "2.0" "3.0" "4.0" (fun _ => 0)
    (by decide) (by decide)).1

/-- C1 counterexample: two invocations of app.js generatePrediction with
identical team and odds arguments but different random draws return
different results, so the operation is not a function of its four
arguments alone. -/
theorem claim1_counterexample :
    App.generatePrediction "Arsenal" "Chelsea" "1.5" "2.0" (fun _ => 0) ≠
    App.generatePrediction "Arsenal" "Chelsea" "1.5" "2.0" (fun _ => 1/2) := by
  intro h
  have hc : (App.generatePrediction "Arsenal" "Chelsea" "1.5" "2.0"
      (fun _ => 0)).halfTimeScores.getD 0 ⟨0, 0, 0⟩ =
      (App.generatePrediction "Arsenal" "Chelsea" "1.5" "2.0"
      (fun _ => 1/2)).halfTimeScores.getD 0 ⟨0, 0, 0⟩ := by rw [h]
  have e0 : (App.generatePrediction "Arsenal" "Chelsea" "1.5" "2.0"
      (fun _ => 0)).halfTimeScores.getD 0 ⟨0, 0, 0⟩ =
      ⟨jsFloor ((0 : ℚ) * 3), jsFloor ((0 : ℚ) * 3),
        jsFloor ((0 : ℚ) * 20) + 50⟩ := rfl
  have e1 : (App.generatePrediction "Arsenal" "Chelsea" "1.5" "2.0"
      (fun _ => 1/2)).halfTimeScores.getD 0 ⟨0, 0, 0⟩ =
      ⟨jsFloor ((1/2 : ℚ) * 3), jsFloor ((1/2 : ℚ) * 3),
        jsFloor ((1/2 : ℚ) * 20) + 50⟩ := rfl
  rw [e0, e1, ScoreEntry.mk.injEq] at hc
  have hconf := hc.2.2
  rw [jsFloor_int ((0 : ℚ) * 20) 0 (by norm_num),
    jsFloor_int ((1/2 : ℚ) * 20) 10 (by norm_num)] at hconf
  omega

/-- C1 amended: each cited generatePrediction is a deterministic function
of its four arguments and the random draw stream: the app.js variant
reads at most the first 20 draws and the part_000 variant at most the
first 22, so two invocations with identical team and odds arguments
whose streams agree on those indices return identical results.  Neither
is a function of the four arguments alone. -/
theorem claim1_theorem (t1 t2 o1 o2 : String) (r r2 : Rng) :
    ((∀ i < 20, r i = r2 i) →
      App.generatePrediction t1 t2 o1 o2 r =
      App.generatePrediction t1 t2 o1 o2 r2) ∧
    ((∀ i < 22, r i = r2 i) →
      Part0.generatePrediction t1 t2 o1 o2 r =
      Part0.generatePrediction t1 t2 o1 o2 r2) := by
  constructor
  · intro h
    simp only [App.generatePrediction]
    rw [h 0 (by norm_num), h 1 (by norm_num), h 2 (by norm_num),
      h 3 (by norm_num), h 4 (by norm_num), h 5 (by norm_num),
      h 6 (by norm_num), h 7 (by norm_num), h 8 (by norm_num),
      h 9 (by norm_num), h 10 (by norm_num), h 11 (by norm_num),
      h 12 (by norm_num), h 13 (by norm_num)]
    by_cases h12 : r2 12 > 3/5
    · simp only [h12, ite_true, Nat.reduceAdd]
      rw [h 13 (by norm_num), h 14 (by norm_num)]
      by_cases h14 : r2 14 > 3/5
      · simp only [h14, ite_true, Nat.reduceAdd]
        rw [h 15 (by norm_num), h 16 (by norm_num), h 17 (by norm_num)]
      · simp only [h14, ite_false, Nat.reduceAdd]
        rw [h 15 (by norm_num), h 16 (by norm_num), h 17 (by norm_num),
          h 18 (by norm_num)]
    · simp only [h12, ite_false, Nat.reduceAdd]
      rw [h 14 (by norm_num), h 15 (by norm_num)]
      by_cases h15 : r2 15 > 3/5
      · simp only [h15, ite_true, Nat.reduceAdd]
        rw [h 16 (by norm_num), h 17 (by norm_num), h 18 (by norm_num)]
      · simp only [h15, ite_false, Nat.reduceAdd]
        rw [h 16 (by norm_num), h 17 (by norm_num), h 18 (by norm_num),
          h 19 (by norm_num)]
  · intro h
    simp only [Part0.generatePrediction]
    rw [h 0 (by norm_num), h 1 (by norm_num), h 2 (by norm_num),
      h 3 (by norm_num), h 4 (by norm_num), h 5 (by norm_num),
      h 6 (by norm_num), h 7 (by norm_num), h 8 (by norm_num),
      h 9 (by norm_num), h 10 (by norm_num), h 11 (by norm_num),
      h 12 (by norm_num), h 13 (by norm_num), h 14 (by norm_num),
      h 15 (by norm_num), h 16 (by norm_num), h 17 (by norm_num),
      h 18 (by norm_num), h 19 (by norm_num), h 20 (by norm_num),
      h 21 (by norm_num)]

/-- Witness for C1: for each variant, two streams that agree on all the
draws the variant reads but differ beyond them give identical
predictions. -/
theorem claim1_witness :
    (App.generatePrediction "Arsenal" "Chelsea" "1.5" "2.0" (fun _ => 0) =
      App.generatePrediction "Arsenal" "Chelsea" "1.5" "2.0"
        (fun i => if i < 20 then 0 else 1/3)) ∧
    (Part0.generatePrediction "Arsenal" "Chelsea" "1.5" "2.0" (fun _ => 0) =
      Part0.generatePrediction "Arsenal" "Chelsea" "1.5" "2.0"
        (fun i => if i < 22 then 0 else 1/3)) :=
  ⟨( claim1_theorem "Arsenal" "Chelsea" "1.5" "2.0" (fun _ => 0)
      (fun i => if i < 20 then 0 else 1/3)).1 (fun i hi => by simp [hi]),
   ( claim1_theorem "Arsenal" "Chelsea" "1.5" "2.0" (fun _ => 0)
      (fun i => if i < 22 then 0 else 1/3)).2 (fun i hi => by simp [hi])⟩

end FifaPredictor
